import Mathlib

/-!
Shallow embedding of the disclink bridge server (the converged CommonJS
implementation, src/unnamed/part_004), covering its data model and the
operations referenced by the verification claims: idempotent sends keyed
by ref, the pending queue with retry/backoff, target resolution, the
inbound message pipeline (dedupe, display text, ping detection), the
connection fan-out layer, and the persisted-state load.

JavaScript values are modelled as plain Lean data: nullable strings as
Option String (with jsTruthy capturing string truthiness, where the empty
string is falsy), Date.now() timestamps as Nat milliseconds, the Discord
client's guild/channel caches as explicit lists, and the outcome of an
upstream channel.send call as an oracle sendErr : String -> Option String
(none = success, some e = the thrown error message e).
-/

namespace Disclink

/-- Dedupe window constant DEDUPE_WINDOW_MS from the source. -/
def DEDUPE_WINDOW_MS : Nat := 1500

/-- MAX_SEND_RETRIES from the source. -/
def MAX_SEND_RETRIES : Nat := 5

/-- BASE_BACKOFF_MS from the source. -/
def BASE_BACKOFF_MS : Nat := 400

/-- JavaScript truthiness of a nullable string: null and the empty string
are falsy, every other string is truthy. -/
def jsTruthy : Option String → Bool
  | some s => !s.isEmpty
  | none => false

/-- JavaScript expression (x || null): collapses a falsy string to null. -/
def jsOrNone : Option String → Option String
  | some s => if s.isEmpty then none else some s
  | none => none

/-- Dynamic type tag of an upstream channel object (ch.type is a string in
discord.js v13, a number in v14, or something else entirely). -/
inductive JType where
  | str (s : String)
  | num (n : Nat)
  | other
deriving DecidableEq, Repr

/-- Upstream (discord.js) channel object as seen by the bridge:
isTextResult models the result of ch.isText() when that method exists,
hasSend models the duck-typing check ('send' in channel). -/
structure UChannel where
  id : String
  name : String
  isTextResult : Option Bool
  type : JType
  hasSend : Bool
deriving DecidableEq, Repr

/-- Upstream guild object with its channel cache. -/
structure UGuild where
  id : String
  name : String
  channels : List UChannel
deriving DecidableEq, Repr

/-- The upstream client's guild cache (client.guilds.cache). -/
structure Upstream where
  guilds : List UGuild
deriving DecidableEq, Repr

/-- String channel types treated as text-like by isTextLikeChannel. -/
def textLikeTypes : List String :=
  ["GUILD_TEXT", "GUILD_NEWS", "TEXT", "NEWS", "GUILD_FORUM",
   "GUILD_PUBLIC_THREAD", "GUILD_PRIVATE_THREAD"]

/-- String channel types treated as voice or category (never text-like). -/
def voiceOrCategoryTypes : List String :=
  ["GUILD_VOICE", "GUILD_STAGE_VOICE", "GUILD_CATEGORY", "VOICE", "CATEGORY"]

/-- isTextLikeChannel from the source: prefer ch.isText() when available,
else fall back to the string type sets, else to the numeric mapping
(0 = text, 5 = news), else false. -/
def isTextLikeChannel (ch : UChannel) : Bool :=
  match ch.isTextResult with
  | some b => b
  | none =>
    match ch.type with
    | .str t =>
      if voiceOrCategoryTypes.contains t then false
      else if textLikeTypes.contains t then true
      else false
    | .num n => n == 0 || n == 5
    | .other => false

/-- Cached channel entry {id, name} in the server directory. -/
structure CChannel where
  id : String
  name : String
deriving DecidableEq, Repr

/-- Cached guild entry {id, name, channels} in the server directory. -/
structure CGuild where
  id : String
  name : String
  channels : List CChannel
deriving DecidableEq, Repr

/-- A sendMessage request body (fields of the client message). -/
structure SendMsg where
  ref : Option String
  guildId : Option String
  guildName : Option String
  channelId : Option String
  channelName : Option String
  content : Option String
deriving DecidableEq, Repr

/-- A parked queue item { req, tries, queuedAt }. -/
structure QueueItem where
  req : SendMsg
  tries : Nat
  queuedAt : Nat
deriving DecidableEq, Repr

/-- The module-level mutable state of the bridge process. -/
structure BridgeState where
  discordConnected : Bool
  cacheReady : Bool
  servers : List CGuild
  queue : List QueueItem
  processedRefs : List String
  cacheBuilding : Bool
  processingQueue : Bool
deriving DecidableEq, Repr

/-- Initial runtime state of the process before any load or event. -/
def initState : BridgeState :=
  { discordConnected := false, cacheReady := false, servers := [],
    queue := [], processedRefs := [], cacheBuilding := false,
    processingQueue := false }

/-- The persisted state file (cache.json) contents once parsed. -/
structure DiskFile where
  cacheReady : Bool
  servers : List CGuild
  queue : List QueueItem
  processedRefs : List String
deriving DecidableEq, Repr

/-- loadCacheFromDisk: a missing or unparsable file leaves the state at its
defaults; a parsed file replaces servers, cacheReady, queue and
processedRefs. -/
def loadCacheFromDisk (file : Option DiskFile) (st : BridgeState) : BridgeState :=
  match file with
  | none => st
  | some p =>
    { st with servers := p.servers, cacheReady := p.cacheReady,
              queue := p.queue, processedRefs := p.processedRefs }

/-- An ack message payload { ok, ref, skipped?, queued?, error? }. -/
structure Ack where
  ok : Bool
  ref : Option String := none
  skipped : Bool := false
  queued : Bool := false
  error : Option String := none
deriving DecidableEq, Repr

/-- Normalized mention entry {id, username}. -/
structure Mention where
  id : String
  username : String
deriving DecidableEq, Repr

/-- Normalized attachment entry pushed by the messageCreate handler. -/
structure Attachment where
  url : String
  name : Option String
  contentType : Option String
deriving DecidableEq, Repr

/-- Normalized embed entry {title, description, type} built by the
messageCreate handler (falsy fields collapsed to null). -/
structure Embed where
  title : Option String
  description : Option String
  etype : Option String
deriving DecidableEq, Repr

/-- Author info embedded in a forwarded message payload. -/
structure AuthorInfo where
  id : String
  username : String
  bot : Bool
deriving DecidableEq, Repr

/-- The data object of a forwarded message event. -/
structure MsgPayload where
  messageId : String
  rawContent : String
  trimmedContent : String
  displayText : String
  attachments : List Attachment
  embeds : List Embed
  mentions : List Mention
  author : AuthorInfo
  guildId : String
  guildName : String
  channelId : String
  channelName : String
  timestamp : Nat
  fromSelf : Bool
deriving DecidableEq, Repr

/-- The data object of a forwarded ping event. -/
structure PingPayload where
  messageId : String
  fromId : String
  fromUsername : String
  guildId : String
  guildName : String
  channelId : String
  channelName : String
  content : String
  timestamp : Nat
deriving DecidableEq, Repr

/-- Server-to-client message kinds. -/
inductive SMsg where
  | bridgeStatus (bridgeConnected discordReady : Bool)
  | ready (value : Bool)
  | serverPart (guild : CGuild)
  | serverList (servers : List CGuild)
  | ack (a : Ack)
  | pong
  | errorMsg (e : String)
  | message (p : MsgPayload)
  | pingEv (p : PingPayload)
deriving DecidableEq, Repr

/-- An emission: broadcast to all sockets, or safeSend to the one socket
that is being handled. -/
inductive Emit where
  | toAll (m : SMsg)
  | toClient (m : SMsg)
deriving DecidableEq, Repr

/-- An upstream send call: (channel id, content). -/
structure SendCall where
  channelId : String
  content : String
deriving DecidableEq, Repr

/-- client.channels.fetch(cid): a global fetch that succeeds exactly when a
channel with that id is visible to the client; a fetch failure is caught
in the source and leaves targetChannel null. -/
def findChannelGlobal (up : Upstream) (cid : String) : Option UChannel :=
  (up.guilds.foldr (fun g acc => g.channels ++ acc) []).find? (fun ch => ch.id == cid)

/-- client.guilds.cache.get(gid). -/
def guildById (up : Upstream) (gid : String) : Option UGuild :=
  up.guilds.find? (fun g => g.id == gid)

/-- client.guilds.cache.find(g goes to g.name === r or g.id === r): the
guild-name fallback also accepts an id, by exact string comparison. -/
def guildByNameOrId (up : Upstream) (r : String) : Option UGuild :=
  up.guilds.find? (fun g => g.name == r || g.id == r)

/-- Channel lookup inside a guild by exact name-or-id match restricted to
text-like channels, mirroring guild.channels.cache.find in the source. -/
def channelByNameOrId (g : UGuild) (r : String) : Option UChannel :=
  g.channels.find? (fun c => (c.name == r || c.id == r) && isTextLikeChannel c)

/-- First resolution stage of handleSendRequest: the global
client.channels.fetch by channelId when one was supplied. -/
def globalChannelLookup (up : Upstream) (msg : SendMsg) : Option UChannel :=
  match msg.channelId with
  | some cid => findChannelGlobal up cid
  | none => none

/-- Guild resolution stage: guildId through the cache first, the
guildName fallback (matched as exact name-or-id) only when that failed. -/
def guildLookup (up : Upstream) (msg : SendMsg) : Option UGuild :=
  let g0 : Option UGuild :=
    match msg.guildId with
    | some gid => guildById up gid
    | none => none
  match g0 with
  | some g => some g
  | none =>
    match msg.guildName with
    | some gn => guildByNameOrId up gn
    | none => none

/-- Channel resolution stage inside a resolved guild: by id from the
guild's cache first, then by exact name-or-id among text-like channels. -/
def channelInGuild (g : UGuild) (msg : SendMsg) : Option UChannel :=
  let c0 : Option UChannel :=
    match msg.channelId with
    | some cid => g.channels.find? (fun c => c.id == cid)
    | none => none
  match c0 with
  | some c => some c
  | none =>
    match msg.channelName with
    | some cn => channelByNameOrId g cn
    | none => none

/-- Target resolution of handleSendRequest: first a global fetch by
channelId; otherwise resolve the guild (by guildId, then by guildName as
name-or-id), throwing "Guild not found" when absent, then the channel
inside the guild (by id, then by name-or-id among text-like channels);
finally the duck-typing check that the channel has a send method. -/
def resolveTarget (up : Upstream) (msg : SendMsg) : Except String UChannel :=
  let t1 : Except String (Option UChannel) :=
    match globalChannelLookup up msg with
    | some ch => .ok (some ch)
    | none =>
      match guildLookup up msg with
      | none => .error "Guild not found"
      | some g => .ok (channelInGuild g msg)
  match t1 with
  | .error e => .error e
  | .ok none => .error "Channel not found or not sendable"
  | .ok (some ch) =>
    if ch.hasSend then .ok ch else .error "Channel not found or not sendable"

/-- Membership test of a nullable ref in the processed set, mirroring
(ref and processedRefs.has(ref)). -/
def refProcessed (st : BridgeState) : Option String → Bool
  | some r => st.processedRefs.contains r
  | none => false

/-- handleSendRequest: skip an already-processed ref with a broadcast
skipped ack and no send; otherwise resolve the target, broadcast a failure
ack on a resolution error; otherwise attempt the send (sendErr c = none
means channel.send succeeded on channel c), add the ref to processedRefs
on success and broadcast the success ack, or broadcast a failure ack with
the thrown message. Returns (state, emissions, send attempts, res.ok). -/
def handleSendRequest (st : BridgeState) (up : Upstream)
    (sendErr : String → Option String) (msg : SendMsg) :
    BridgeState × List Emit × List SendCall × Bool :=
  if refProcessed st msg.ref then
    (st, [.toAll (.ack { ok := true, ref := msg.ref, skipped := true })], [], true)
  else
    match resolveTarget up msg with
    | .error e =>
      (st, [.toAll (.ack { ok := false, ref := msg.ref, error := some e })], [], false)
    | .ok ch =>
      match sendErr ch.id with
      | none =>
        let st' :=
          match msg.ref with
          | some r => { st with processedRefs := st.processedRefs ++ [r] }
          | none => st
        (st', [.toAll (.ack { ok := true, ref := msg.ref })],
         [⟨ch.id, (msg.content.getD "")⟩], true)
      | some e =>
        (st, [.toAll (.ack { ok := false, ref := msg.ref, error := some e })],
         [⟨ch.id, (msg.content.getD "")⟩], false)

/-- Ref defaulting at the top of the sendMessage branch: a missing ref is
replaced by String(Date.now()). -/
def withDefaultRef (now : Nat) (msg0 : SendMsg) : SendMsg :=
  match msg0.ref with
  | none => { msg0 with ref := some (toString now) }
  | some _ => msg0

/-- The sendMessage branch of the connection handler: default a missing ref
to String(Date.now()); when Discord is connected, delegate to
handleSendRequest; otherwise park the request keyed by ref — a ref already
present in the queue is left alone and nothing is emitted — and safeSend
the queued ack to the submitting socket only. -/
def sendMessageBranch (st : BridgeState) (up : Upstream)
    (sendErr : String → Option String) (now : Nat) (msg0 : SendMsg) :
    BridgeState × List Emit × List SendCall :=
  let msg := withDefaultRef now msg0
  if st.discordConnected then
    let r := handleSendRequest st up sendErr msg
    (r.1, r.2.1, r.2.2.1)
  else
    if (st.queue.find? (fun q => q.req.ref == msg.ref)).isNone then
      ({ st with queue := st.queue ++ [⟨msg, 0, now⟩] },
       [.toClient (.ack { ok := false, ref := msg.ref, queued := true,
                          error := some "queued-not-connected" })], [])
    else
      (st, [], [])

/-- Backoff computed by processQueue before the next attempt:
BASE_BACKOFF_MS * 2 ^ min 6 tries milliseconds. -/
def backoffMs (tries : Nat) : Nat :=
  BASE_BACKOFF_MS * 2 ^ (min 6 tries)

/-- One iteration of the processQueue while-loop, for a nonempty queue with
Discord connected: shift the head item, skip it with a broadcast skipped
ack when its ref is already processed; otherwise attempt delivery through
handleSendRequest; on success sleep 150 ms; on failure increment tries,
requeue at the tail with a backoff sleep while tries < MAX_SEND_RETRIES,
else drop the item and broadcast the max-retries ack. The final Nat is the
sleep performed before the next iteration. -/
def processQueueStep (st : BridgeState) (up : Upstream)
    (sendErr : String → Option String) (now : Nat) :
    BridgeState × List Emit × List SendCall × Nat :=
  match st.queue with
  | [] => (st, [], [], 0)
  | item :: rest =>
    let st0 := { st with queue := rest }
    let msg := item.req
    if refProcessed st msg.ref then
      (st0, [.toAll (.ack { ok := true, ref := msg.ref, skipped := true })], [], 0)
    else
      let r := handleSendRequest st0 up sendErr msg
      if r.2.2.2 then
        (r.1, r.2.1, r.2.2.1, 150)
      else
        let tries1 := item.tries + 1
        if tries1 < MAX_SEND_RETRIES then
          ({ r.1 with queue := r.1.queue ++ [{ item with tries := tries1, queuedAt := now }] },
           r.2.1, r.2.2.1, backoffMs tries1)
        else
          (r.1,
           r.2.1 ++ [.toAll (.ack { ok := false, ref := msg.ref, error := some "max-retries" })],
           r.2.2.1, 0)

/-- The cached directory entry produced for one upstream guild: its
text-like channels projected to {id, name}. -/
def cacheChannels (g : UGuild) : List CChannel :=
  (g.channels.filter isTextLikeChannel).map (fun ch => ⟨ch.id, ch.name⟩)

/-- buildCacheOnce: a no-op while a build is already in flight
(cacheBuilding guard); otherwise rebuild servers from the upstream guild
cache, emitting one serverPartial broadcast per guild when progressive,
set cacheReady, and broadcast the full serverList. The final component
lists the upstream guilds whose channels were fetched. -/
def buildCacheOnce (st : BridgeState) (up : Upstream) (progressively : Bool) :
    BridgeState × List Emit × List String :=
  if st.cacheBuilding then (st, [], [])
  else
    let newServers := up.guilds.map (fun g => (⟨g.id, g.name, cacheChannels g⟩ : CGuild))
    let parts :=
      if progressively then
        up.guilds.map (fun g => Emit.toAll (.serverPart ⟨g.id, g.name, cacheChannels g⟩))
      else []
    ({ st with servers := newServers, cacheReady := true, cacheBuilding := false },
     parts ++ [.toAll (.serverList newServers)],
     up.guilds.map (fun g => g.id))

/-- The connection handler's initial replay: safeSend bridgeStatus, then
ready (carrying state.discordConnected), then the serverList when the
cached list is nonempty. It touches no state and fetches nothing upstream,
so it returns the state unchanged and an empty fetch list. -/
def onConnection (st : BridgeState) : BridgeState × List Emit × List String :=
  (st,
   [.toClient (.bridgeStatus true st.discordConnected),
    .toClient (.ready st.discordConnected)]
   ++ (if st.servers.length > 0 then [.toClient (.serverList st.servers)] else []),
   [])

/-- Client-to-server message kinds dispatched by the socket handler. -/
inductive ClientMsg where
  | hbAck
  | pingMsg
  | getServerList (force : Bool)
  | refreshServers
  | sendMessage (m : SendMsg)
  | other
deriving DecidableEq, Repr

/-- The socket message dispatcher: hb_ack only stamps the socket, ping is
answered with pong, getServerList answers from the cached list without any
rebuild (the force field is ignored by the source), refreshServers runs
buildCacheOnce, sendMessage runs the send branch, and anything else gets
an unknown-request error. -/
def handleClientMsg (st : BridgeState) (up : Upstream)
    (sendErr : String → Option String) (now : Nat) :
    ClientMsg → BridgeState × List Emit × List SendCall
  | .hbAck => (st, [], [])
  | .pingMsg => (st, [.toClient .pong], [])
  | .getServerList _ => (st, [.toClient (.serverList st.servers)], [])
  | .refreshServers =>
    let r := buildCacheOnce st up true
    (r.1, r.2.1, [])
  | .sendMessage m => sendMessageBranch st up sendErr now m
  | .other => (st, [.toClient (.errorMsg "unknown-request")], [])

/-! ### Inbound message pipeline (messageCreate handler) -/

/-- Raw attachment on an inbound platform message. -/
structure RawAttachment where
  url : String
  name : Option String
  contentType : Option String
deriving DecidableEq, Repr

/-- Raw embed on an inbound platform message. -/
structure RawEmbed where
  title : Option String
  description : Option String
  etype : Option String
deriving DecidableEq, Repr

/-- Raw inbound platform message as the messageCreate handler reads it.
hasGuild models (m.guild and m.channel) being present. -/
structure RawMsg where
  id : String
  hasGuild : Bool
  webhookId : Option String
  authorId : String
  authorUsername : String
  authorBot : Bool
  content : String
  attachments : List RawAttachment
  embeds : List RawEmbed
  mentionUsers : List Mention
  guildId : String
  guildName : String
  channelId : String
  channelName : String
  createdTimestamp : Nat
deriving DecidableEq, Repr

/-- Content trimming from the source: strip zero-width spaces then trim. -/
def trimContent (raw : String) : String :=
  (raw.replace "\u200B" "").trim

/-- Attachment normalization: keep only attachments with a truthy url. -/
def normAttachments (l : List RawAttachment) : List Attachment :=
  (l.filter (fun a => !a.url.isEmpty)).map
    (fun a => ⟨a.url, jsOrNone a.name, jsOrNone a.contentType⟩)

/-- Embed normalization: falsy title/description/type collapse to null. -/
def normEmbeds (l : List RawEmbed) : List Embed :=
  l.map (fun e => ⟨jsOrNone e.title, jsOrNone e.description, jsOrNone e.etype⟩)

/-- First embed text considered by pickDisplayText: the first embed's
description when truthy, else its title when truthy. -/
def embedText : List Embed → Option String
  | [] => none
  | e :: _ =>
    if jsTruthy e.description then e.description
    else if jsTruthy e.title then e.title
    else none

/-- First attachment text considered by pickDisplayText: the first
attachment's url when truthy. -/
def attachmentText : List Attachment → Option String
  | [] => none
  | a :: _ => if !a.url.isEmpty then some a.url else none

/-- pickDisplayText from the source: non-empty trimmed content, else the
first embed's description, else the first embed's title, else the first
attachment's url, else the literal sentinel. -/
def pickDisplayText (trimmed : String) (embeds : List Embed)
    (attachments : List Attachment) : String :=
  if !trimmed.isEmpty then trimmed
  else
    match embedText embeds with
    | some s => s
    | none =>
      match attachmentText attachments with
      | some s => s
      | none => "[no content]"

/-- Per-channel dedupe record { id, ts }. -/
structure LastMsg where
  id : String
  ts : Nat
deriving DecidableEq, Repr

/-- The lastMessagePerChannel map, as an association list. -/
abbrev DedupeMap := List (String × LastMsg)

/-- Map.get on the dedupe map. -/
def dmapGet (m : DedupeMap) (k : String) : Option LastMsg :=
  match (List.find? (fun p => p.1 == k) m) with
  | some p => some p.2
  | none => none

/-- Map.set on the dedupe map. -/
def dmapSet (m : DedupeMap) (k : String) (v : LastMsg) : DedupeMap :=
  match m with
  | [] => [(k, v)]
  | (k1, v1) :: rest =>
    if k1 == k then (k, v) :: rest else (k1, v1) :: dmapSet rest k v

/-- The dedupe test of the handler: the channel's last recorded entry has
the same message id and was recorded less than DEDUPE_WINDOW_MS ago. -/
def dedupeSuppressed (dmap : DedupeMap) (chanId msgId : String) (now : Nat) : Bool :=
  match dmapGet dmap chanId with
  | some last => last.id == msgId && now - last.ts < DEDUPE_WINDOW_MS
  | none => false

/-- The messageCreate handler: drop direct messages, webhook messages and
messages from other automated accounts; dedupe per channel (a suppressed
message leaves the map untouched, an accepted one overwrites the channel
entry); then broadcast the message payload, and additionally a ping
payload when the connected identity is among the mentions. selfId is
client.user's id once ready, now is Date.now(). -/
def messageCreate (selfId : Option String) (dmap : DedupeMap)
    (m : RawMsg) (now : Nat) : DedupeMap × List Emit :=
  if !m.hasGuild then (dmap, [])
  else if m.webhookId.isSome then (dmap, [])
  else if m.authorBot && selfId.isSome && !(selfId == some m.authorId) then (dmap, [])
  else
    let trimmed := trimContent m.content
    let attachments := normAttachments m.attachments
    let embeds := normEmbeds m.embeds
    let mentions := m.mentionUsers
    if dedupeSuppressed dmap m.channelId m.id now then (dmap, [])
    else
      let dmap' := dmapSet dmap m.channelId ⟨m.id, now⟩
      let displayText := pickDisplayText trimmed embeds attachments
      let fromSelf := selfId == some m.authorId
      let payload : MsgPayload :=
        { messageId := m.id, rawContent := m.content, trimmedContent := trimmed,
          displayText := displayText, attachments := attachments, embeds := embeds,
          mentions := mentions,
          author := ⟨m.authorId, m.authorUsername, m.authorBot⟩,
          guildId := m.guildId, guildName := m.guildName,
          channelId := m.channelId, channelName := m.channelName,
          timestamp := m.createdTimestamp, fromSelf := fromSelf }
      let pinged :=
        match selfId with
        | some sid => mentions.any (fun u => u.id == sid)
        | none => false
      if pinged then
        (dmap',
         [.toAll (.message payload),
          .toAll (.pingEv { messageId := m.id, fromId := m.authorId,
                            fromUsername := m.authorUsername,
                            guildId := m.guildId, guildName := m.guildName,
                            channelId := m.channelId, channelName := m.channelName,
                            content := displayText, timestamp := m.createdTimestamp })])
      else
        (dmap', [.toAll (.message payload)])

/-! ### Fan-out layer (broadcast over raw sockets) -/

/-- A downstream socket as broadcast sees it: its ready state, and whether
its send method throws when invoked. -/
structure WSocket where
  sid : String
  readyStateOpen : Bool
  sendThrows : Bool
deriving DecidableEq, Repr

/-- The sockets.forEach loop of broadcast: skip non-open sockets, deliver
to open ones in order; ws.send is not wrapped in try/catch there, so a
throwing send propagates out of the forEach, aborting the remaining
deliveries. Returns (socket ids delivered to, completed without throw). -/
def broadcastDeliver : List WSocket → List String × Bool
  | [] => ([], true)
  | ws :: rest =>
    if ws.readyStateOpen then
      if ws.sendThrows then ([], false)
      else
        let r := broadcastDeliver rest
        (ws.sid :: r.1, r.2)
    else broadcastDeliver rest

/-- broadcast: JSON.stringify the event exactly once (the first component
counts the serializations performed), then run the delivery loop. -/
def broadcastRun (sockets : List WSocket) : Nat × List String × Bool :=
  (1, broadcastDeliver sockets)

/-! ### Concrete fixtures used by witnesses and counterexamples -/

/-- A sendable text channel named general. -/
def chGeneral : UChannel := ⟨"c1", "general", some true, .str "GUILD_TEXT", true⟩

/-- A guild named Test holding the general channel. -/
def guildTest : UGuild := ⟨"g1", "Test", [chGeneral]⟩

/-- An upstream cache holding exactly the Test guild. -/
def upTest : Upstream := ⟨[guildTest]⟩

/-- A sendMessage request targeting Test/general by name with ref abc. -/
def msgHi : SendMsg :=
  { ref := some "abc", guildId := none, guildName := some "Test",
    channelId := none, channelName := some "general", content := some "hi" }

/-- A sendMessage request whose guild id is unknown to the upstream. -/
def msgBad : SendMsg :=
  { ref := some "q1", guildId := some "nope", guildName := none,
    channelId := none, channelName := none, content := some "x" }

/-- A connected state whose queue holds one parked copy of msgBad. -/
def stQ : BridgeState :=
  { initState with discordConnected := true, queue := [⟨msgBad, 0, 0⟩] }

/-- A disconnected state in which msgHi is already parked in the queue. -/
def stParked : BridgeState := { initState with queue := [⟨msgHi, 0, 0⟩] }

/-- Recognizer for forwarded message events among emissions. -/
def isMessageEmit : Emit → Bool
  | .toAll (.message _) => true
  | _ => false

/-- Number of forwarded message events in a list of emissions. -/
def countMessages (l : List Emit) : Nat :=
  (l.filter isMessageEmit).length

/-- A cached directory entry for the Test guild. -/
def gCached : CGuild := ⟨"g1", "Test", [⟨"c1", "general"⟩]⟩

/-- A state holding a ready persisted snapshot while Discord is still
disconnected — the situation right after a restart with a cache file. -/
def stReadyCache : BridgeState :=
  { initState with cacheReady := true, servers := [gCached] }

/-- An open socket whose send succeeds, labelled s1. -/
def sOk1 : WSocket := ⟨"s1", true, false⟩

/-- An open socket whose send throws, labelled s2. -/
def sBad : WSocket := ⟨"s2", true, true⟩

/-- An open socket whose send succeeds, labelled s3. -/
def sOk3 : WSocket := ⟨"s3", true, false⟩

/-! ## Claim theorems -/

/-- handleSendRequest never touches the pending queue. -/
theorem handleSendRequest_queue (st : BridgeState) (up : Upstream)
    (se : String → Option String) (msg : SendMsg) :
    (handleSendRequest st up se msg).1.queue = st.queue := by
  unfold handleSendRequest
  split
  · rfl
  · split
    · rfl
    · split
      · split <;> rfl
      · rfl

/-- handleSendRequest only ever appends to the processed set. -/
theorem handleSendRequest_processed_mono (st : BridgeState) (up : Upstream)
    (se : String → Option String) (msg : SendMsg) (r : String)
    (h : r ∈ st.processedRefs) :
    r ∈ (handleSendRequest st up se msg).1.processedRefs := by
  unfold handleSendRequest
  split
  · exact h
  · split
    · exact h
    · split
      · split
        · simpa using Or.inl h
        · exact h
      · exact h

/-- C1: a sendMessage whose ref is already in the processed set is answered
by the handler with a broadcast ack {ok:true, ref, skipped:true}, no
upstream send call and no state change; this covers refs restored by
loadCacheFromDisk from the persisted file after a restart; and when the
first submission of a fresh ref succeeds while connected, a second
submission of the same ref makes no further send call, so the pair results
in exactly one upstream send. -/
theorem sendqueue_idempotent_skip :
    (∀ (st : BridgeState) (up : Upstream) (se : String → Option String)
       (msg : SendMsg) (r : String),
       msg.ref = some r → st.processedRefs.contains r = true →
       handleSendRequest st up se msg =
         (st, [.toAll (.ack { ok := true, ref := some r, skipped := true })], [], true))
    ∧
    (∀ (file : DiskFile) (up : Upstream) (se : String → Option String)
       (msg : SendMsg) (r : String),
       msg.ref = some r → file.processedRefs.contains r = true →
       handleSendRequest
         { loadCacheFromDisk (some file) initState with discordConnected := true }
         up se msg =
         ({ loadCacheFromDisk (some file) initState with discordConnected := true },
          [.toAll (.ack { ok := true, ref := some r, skipped := true })], [], true))
    ∧
    (∀ (st : BridgeState) (up : Upstream) (se1 se2 : String → Option String)
       (msg : SendMsg) (r : String) (ch : UChannel),
       msg.ref = some r → st.processedRefs.contains r = false →
       resolveTarget up msg = .ok ch → se1 ch.id = none →
       (handleSendRequest st up se1 msg).2.2.1.length = 1 ∧
       (handleSendRequest (handleSendRequest st up se1 msg).1 up se2 msg).2.2.1 = [] ∧
       (handleSendRequest (handleSendRequest st up se1 msg).1 up se2 msg).2.1 =
         [.toAll (.ack { ok := true, ref := some r, skipped := true })]) := by
  refine ⟨?_, ?_, ?_⟩
  · intro st up se msg r href hmem
    have hmem' : r ∈ st.processedRefs := by simpa using hmem
    simp [handleSendRequest, refProcessed, href, hmem']
  · intro file up se msg r href hmem
    have hmem' : r ∈ file.processedRefs := by simpa using hmem
    simp [handleSendRequest, refProcessed, href, loadCacheFromDisk, initState, hmem']
  · intro st up se1 se2 msg r ch href hmem hres hok
    have hmem' : r ∉ st.processedRefs := by simpa using hmem
    have h1 : handleSendRequest st up se1 msg =
        ({ st with processedRefs := st.processedRefs ++ [r] },
         [.toAll (.ack { ok := true, ref := some r })],
         [⟨ch.id, (msg.content.getD "")⟩], true) := by
      simp [handleSendRequest, refProcessed, href, hmem', hres, hok]
    refine ⟨by rw [h1]; rfl, ?_, ?_⟩ <;>
      rw [h1] <;> simp [handleSendRequest, refProcessed, href]

/-- Witness for C1 at a concrete state: ref abc persisted on disk, restart,
then a resubmission of abc is skipped with no send. -/
theorem sendqueue_idempotent_skip_witness :
    handleSendRequest
      { loadCacheFromDisk (some ⟨true, [], [], ["abc"]⟩) initState with
          discordConnected := true }
      upTest (fun _ => none) msgHi =
      ({ loadCacheFromDisk (some ⟨true, [], [], ["abc"]⟩) initState with
           discordConnected := true },
       [.toAll (.ack { ok := true, ref := some "abc", skipped := true })], [], true) :=
  sendqueue_idempotent_skip.2.1 ⟨true, [], [], ["abc"]⟩ upTest (fun _ => none)
    msgHi "abc" rfl (by decide)

/-- C2: in the replay loop, a parked item whose delivery attempt fails has
tries incremented; while the incremented count stays below MAX_SEND_RETRIES
the item is requeued at the tail and the sleep before the next attempt is
backoffMs tries, which equals BASE_BACKOFF_MS * 2 ^ tries capped at
25600 ms and is non-decreasing in tries; once the count reaches
MAX_SEND_RETRIES the item is dropped and a broadcast terminal ack with the
max-retries exhaustion reason is emitted. -/
theorem queue_retry_backoff :
    (∀ (st : BridgeState) (up : Upstream) (se : String → Option String) (now : Nat)
       (item : QueueItem) (rest : List QueueItem) (st1 : BridgeState)
       (ems : List Emit) (snds : List SendCall),
       st.queue = item :: rest →
       refProcessed st item.req.ref = false →
       handleSendRequest { st with queue := rest } up se item.req = (st1, ems, snds, false) →
       item.tries + 1 < MAX_SEND_RETRIES →
       st1.queue = rest ∧
       processQueueStep st up se now =
         ({ st1 with queue := st1.queue ++ [{ item with tries := item.tries + 1, queuedAt := now }] },
          ems, snds, backoffMs (item.tries + 1)))
    ∧
    (∀ (st : BridgeState) (up : Upstream) (se : String → Option String) (now : Nat)
       (item : QueueItem) (rest : List QueueItem) (st1 : BridgeState)
       (ems : List Emit) (snds : List SendCall),
       st.queue = item :: rest →
       refProcessed st item.req.ref = false →
       handleSendRequest { st with queue := rest } up se item.req = (st1, ems, snds, false) →
       MAX_SEND_RETRIES ≤ item.tries + 1 →
       st1.queue = rest ∧
       processQueueStep st up se now =
         (st1,
          ems ++ [.toAll (.ack { ok := false, ref := item.req.ref, error := some "max-retries" })],
          snds, 0))
    ∧
    (∀ t : Nat, backoffMs t = min (BASE_BACKOFF_MS * 2 ^ t) 25600)
    ∧
    (∀ a b : Nat, a ≤ b → backoffMs a ≤ backoffMs b) := by
  refine ⟨?_, ?_, ?_, ?_⟩
  · intro st up se now item rest st1 ems snds hq hskip hr htr
    have hq1 : st1.queue = rest := by
      have h := handleSendRequest_queue { st with queue := rest } up se item.req
      rw [hr] at h; exact h
    exact ⟨hq1, by simp [processQueueStep, hq, hskip, hr, htr]⟩
  · intro st up se now item rest st1 ems snds hq hskip hr hge
    have hq1 : st1.queue = rest := by
      have h := handleSendRequest_queue { st with queue := rest } up se item.req
      rw [hr] at h; exact h
    have hlt : ¬ (item.tries + 1 < MAX_SEND_RETRIES) := Nat.not_lt.mpr hge
    exact ⟨hq1, by simp [processQueueStep, hq, hskip, hr, hlt]⟩
  · intro t
    unfold backoffMs BASE_BACKOFF_MS
    rcases Nat.le_total t 6 with h | h
    · rw [Nat.min_eq_right h, Nat.min_eq_left]
      have h2 : 2 ^ t ≤ 2 ^ 6 := Nat.pow_le_pow_right (by norm_num) h
      calc 400 * 2 ^ t ≤ 400 * 2 ^ 6 := Nat.mul_le_mul_left 400 h2
        _ = 25600 := by norm_num
    · rw [Nat.min_eq_left h, Nat.min_eq_right]
      · norm_num
      · have h2 : 2 ^ 6 ≤ 2 ^ t := Nat.pow_le_pow_right (by norm_num) h
        calc (25600 : Nat) = 400 * 2 ^ 6 := by norm_num
          _ ≤ 400 * 2 ^ t := Nat.mul_le_mul_left 400 h2
  · intro a b hab
    unfold backoffMs
    exact Nat.mul_le_mul_left _
      (Nat.pow_le_pow_right (by norm_num) (min_le_min (le_refl 6) hab))

/-- Witness for C2 at a concrete queue: the parked msgBad fails resolution,
tries goes 0 to 1, the item is requeued and the next-attempt delay is
backoffMs 1 = 800 ms. -/
theorem queue_retry_backoff_witness :
    processQueueStep stQ upTest (fun _ => none) 5 =
      ({ stQ with queue := [⟨msgBad, 1, 5⟩] },
       [.toAll (.ack { ok := false, ref := some "q1", error := some "Guild not found" })],
       [], backoffMs 1) ∧ backoffMs 1 = 800 := by
  have h := queue_retry_backoff.1 stQ upTest (fun _ => none) 5 ⟨msgBad, 0, 0⟩ []
    { stQ with queue := [] }
    [.toAll (.ack { ok := false, ref := some "q1", error := some "Guild not found" })]
    [] rfl rfl rfl (by decide)
  exact ⟨h.2, rfl⟩

/-- C3: a send request submitted while Discord is connected whose target
resolution fails is answered with a single broadcast ack {ok:false, error}
and is terminal: no send call is attempted and the state — in particular
the pending queue consumed by the replay loop — is left unchanged, so the
request is never retried. -/
theorem resolution_failure_terminal
    (st : BridgeState) (up : Upstream) (se : String → Option String) (now : Nat)
    (msg0 : SendMsg) (e : String)
    (hconn : st.discordConnected = true)
    (hskip : refProcessed st (withDefaultRef now msg0).ref = false)
    (hres : resolveTarget up (withDefaultRef now msg0) = .error e) :
    sendMessageBranch st up se now msg0 =
      (st, [.toAll (.ack { ok := false, ref := (withDefaultRef now msg0).ref,
                           error := some e })], []) := by
  simp [sendMessageBranch, hconn, handleSendRequest, hskip, hres]

/-- Witness for C3: a connected submission naming an unknown guild draws
one broadcast failure ack, no send call, and leaves the state unchanged. -/
theorem resolution_failure_terminal_witness :
    sendMessageBranch { initState with discordConnected := true } upTest
      (fun _ => none) 7 msgBad =
      ({ initState with discordConnected := true },
       [.toAll (.ack { ok := false, ref := some "q1", error := some "Guild not found" })],
       []) :=
  resolution_failure_terminal { initState with discordConnected := true } upTest
    (fun _ => none) 7 msgBad "Guild not found" rfl rfl rfl

/-- handleSendRequest always emits exactly one broadcast ack. -/
theorem handleSendRequest_emits (st : BridgeState) (up : Upstream)
    (se : String → Option String) (msg : SendMsg) :
    ∃ a : Ack, (handleSendRequest st up se msg).2.1 = [.toAll (.ack a)] := by
  unfold handleSendRequest
  split
  · exact ⟨_, rfl⟩
  · split
    · exact ⟨_, rfl⟩
    · split
      · split <;> exact ⟨_, rfl⟩
      · exact ⟨_, rfl⟩

/-- C4 counterexample: with the upstream not connected and ref abc already
parked, resubmitting abc leaves the queue untouched and emits no ack at
all — zero acks for that submission, not the claimed ack {queued:true}. -/
theorem duplicate_park_yields_no_ack :
    sendMessageBranch stParked upTest (fun _ => none) 9 msgHi =
      (stParked, [], []) := by
  decide

/-- C4 amended: a submission processed while connected always produces
exactly one broadcast ack; a submission while not connected whose ref is
not yet parked is parked keyed by ref and yields exactly one direct
ack {ok:false, queued:true}; resubmitting a ref that is already parked is
a no-op on the queue and emits no ack of its own. -/
theorem sendMessage_ack_discipline :
    (∀ (st : BridgeState) (up : Upstream) (se : String → Option String)
       (now : Nat) (msg0 : SendMsg),
       st.discordConnected = true →
       ∃ a : Ack, (sendMessageBranch st up se now msg0).2.1 = [.toAll (.ack a)])
    ∧
    (∀ (st : BridgeState) (up : Upstream) (se : String → Option String)
       (now : Nat) (msg0 : SendMsg),
       st.discordConnected = false →
       st.queue.find? (fun q => q.req.ref == (withDefaultRef now msg0).ref) = none →
       sendMessageBranch st up se now msg0 =
         ({ st with queue := st.queue ++ [⟨withDefaultRef now msg0, 0, now⟩] },
          [.toClient (.ack { ok := false, ref := (withDefaultRef now msg0).ref,
                             queued := true, error := some "queued-not-connected" })],
          []))
    ∧
    (∀ (st : BridgeState) (up : Upstream) (se : String → Option String)
       (now : Nat) (msg0 : SendMsg) (q : QueueItem),
       st.discordConnected = false →
       st.queue.find? (fun q => q.req.ref == (withDefaultRef now msg0).ref) = some q →
       sendMessageBranch st up se now msg0 = (st, [], [])) := by
  refine ⟨?_, ?_, ?_⟩
  · intro st up se now msg0 hconn
    simp only [sendMessageBranch, hconn, if_true]
    exact handleSendRequest_emits st up se (withDefaultRef now msg0)
  · intro st up se now msg0 hconn hfind
    simp [sendMessageBranch, hconn, hfind]
  · intro st up se now msg0 q hconn hfind
    simp [sendMessageBranch, hconn, hfind]

/-- Map.set followed by Map.get on the same key returns the new record. -/
theorem dmapGet_set_self (m : DedupeMap) (k : String) (v : LastMsg) :
    dmapGet (dmapSet m k v) k = some v := by
  induction m with
  | nil => simp [dmapSet, dmapGet, List.find?]
  | cons p rest ih =>
    obtain ⟨k1, v1⟩ := p
    by_cases h : (k1 == k) = true
    · simp [dmapSet, h, dmapGet, List.find?]
    · simp only [dmapSet, Bool.not_eq_true] at h ⊢
      rw [h]
      simpa [dmapGet, List.find?, h] using ih

/-- A raw message passing the drop filters and not suppressed by dedupe is
recorded in the map and forwarded as exactly one message event. -/
theorem messageCreate_accept (selfId : Option String) (dmap : DedupeMap)
    (m : RawMsg) (now : Nat)
    (hg : m.hasGuild = true) (hw : m.webhookId = none) (hb : m.authorBot = false)
    (hs : dedupeSuppressed dmap m.channelId m.id now = false) :
    (messageCreate selfId dmap m now).1 = dmapSet dmap m.channelId ⟨m.id, now⟩ ∧
    countMessages (messageCreate selfId dmap m now).2 = 1 ∧
    (messageCreate selfId dmap m now).2 ≠ [] := by
  simp only [messageCreate, hg, hw, hb, hs, Bool.not_true, Bool.false_and,
    Option.isSome_none, Bool.and_false, Bool.false_eq_true, if_false,
    Bool.true_eq_false, ite_false, ite_true]
  split <;> simp [countMessages, isMessageEmit]

/-- A raw message suppressed by the dedupe window is dropped and leaves the
map untouched. -/
theorem messageCreate_suppressed (selfId : Option String) (dmap : DedupeMap)
    (m : RawMsg) (now : Nat)
    (hg : m.hasGuild = true) (hw : m.webhookId = none) (hb : m.authorBot = false)
    (hs : dedupeSuppressed dmap m.channelId m.id now = true) :
    messageCreate selfId dmap m now = (dmap, []) := by
  simp [messageCreate, hg, hw, hb, hs]

/-- Witness for C4 amended: a first-time submission of msgHi while not
connected parks it and yields exactly the direct queued ack. -/
theorem sendMessage_ack_discipline_witness :
    sendMessageBranch initState upTest (fun _ => none) 3 msgHi =
      ({ initState with queue := [⟨msgHi, 0, 3⟩] },
       [.toClient (.ack { ok := false, ref := some "abc", queued := true,
                          error := some "queued-not-connected" })],
       []) := by
  have h := sendMessage_ack_discipline.2.1 initState upTest (fun _ => none) 3 msgHi
    rfl rfl
  exact h

/-- C5: for a pair of inbound events carrying the same message id on the
same channel (both passing the drop filters, the first accepted and
recorded at time t1, the second arriving at t2), the second is suppressed
— no forwarded message event — exactly when t2 - t1 is strictly below
DEDUPE_WINDOW_MS (1.5 s); at or beyond the window the pair produces two
forwarded message events, within it exactly one. -/
theorem dedupe_window_iff (selfId : Option String) (dmap : DedupeMap)
    (m1 m2 : RawMsg) (t1 t2 : Nat)
    (hg1 : m1.hasGuild = true) (hw1 : m1.webhookId = none) (hb1 : m1.authorBot = false)
    (hg2 : m2.hasGuild = true) (hw2 : m2.webhookId = none) (hb2 : m2.authorBot = false)
    (hch : m2.channelId = m1.channelId) (hid : m2.id = m1.id)
    (hs1 : dedupeSuppressed dmap m1.channelId m1.id t1 = false)
    (_hord : t1 ≤ t2) :
    ((messageCreate selfId (messageCreate selfId dmap m1 t1).1 m2 t2).2 = [] ↔
       t2 - t1 < DEDUPE_WINDOW_MS) ∧
    countMessages ((messageCreate selfId dmap m1 t1).2 ++
        (messageCreate selfId (messageCreate selfId dmap m1 t1).1 m2 t2).2) =
      if t2 - t1 < DEDUPE_WINDOW_MS then 1 else 2 := by
  obtain ⟨hmap1, hcnt1, hne1⟩ := messageCreate_accept selfId dmap m1 t1 hg1 hw1 hb1 hs1
  have hsup2 : dedupeSuppressed (messageCreate selfId dmap m1 t1).1 m2.channelId m2.id t2 =
      decide (t2 - t1 < DEDUPE_WINDOW_MS) := by
    rw [hmap1, hch, hid]
    simp [dedupeSuppressed, dmapGet_set_self]
  by_cases hwin : t2 - t1 < DEDUPE_WINDOW_MS
  · have h2 := messageCreate_suppressed selfId (messageCreate selfId dmap m1 t1).1 m2 t2
      hg2 hw2 hb2 (by rw [hsup2]; simpa using hwin)
    rw [h2]
    simp only [hwin, if_true, List.append_nil]
    exact ⟨by simp [hwin], hcnt1⟩
  · have hsup2' : dedupeSuppressed (messageCreate selfId dmap m1 t1).1 m2.channelId m2.id t2 = false := by
      rw [hsup2]; simpa using hwin
    obtain ⟨hmap2, hcnt2, hne2⟩ := messageCreate_accept selfId
      (messageCreate selfId dmap m1 t1).1 m2 t2 hg2 hw2 hb2 hsup2'
    refine ⟨⟨fun h => absurd h hne2, fun h => absurd h hwin⟩, ?_⟩
    simp only [hwin, if_false, countMessages, List.filter_append, List.length_append]
    have c1 : (List.filter isMessageEmit (messageCreate selfId dmap m1 t1).2).length = 1 := hcnt1
    have c2 : (List.filter isMessageEmit
        (messageCreate selfId (messageCreate selfId dmap m1 t1).1 m2 t2).2).length = 1 := hcnt2
    omega

/-- A raw inbound message fixture on channel ch1 with id mA. -/
def rawA : RawMsg :=
  { id := "mA", hasGuild := true, webhookId := none, authorId := "u1",
    authorUsername := "alice", authorBot := false, content := "hello",
    attachments := [], embeds := [], mentionUsers := [],
    guildId := "g1", guildName := "Test", channelId := "ch1",
    channelName := "general", createdTimestamp := 0 }

/-- Witness for C5: the same id re-arriving 100 ms later on the same
channel is suppressed and the pair forwards exactly one message event. -/
theorem dedupe_window_iff_witness :
    ((messageCreate (some "self") (messageCreate (some "self") [] rawA 0).1 rawA 100).2 = [] ↔
       100 - 0 < DEDUPE_WINDOW_MS) ∧
    countMessages ((messageCreate (some "self") [] rawA 0).2 ++
        (messageCreate (some "self") (messageCreate (some "self") [] rawA 0).1 rawA 100).2) =
      if 100 - 0 < DEDUPE_WINDOW_MS then 1 else 2 :=
  dedupe_window_iff (some "self") [] rawA rawA 0 100 rfl rfl rfl rfl rfl rfl rfl rfl
    rfl (by decide)

/-- A truthy result of embedText is a non-empty string. -/
theorem embedText_nonempty (es : List Embed) (s : String)
    (h : embedText es = some s) : s.isEmpty = false := by
  cases es with
  | nil => simp [embedText] at h
  | cons e rest =>
    simp only [embedText] at h
    by_cases hd : jsTruthy e.description = true
    · rw [if_pos hd] at h
      cases hdesc : e.description with
      | none => rw [hdesc] at h; cases h
      | some d =>
        rw [hdesc] at h
        simp only [Option.some.injEq] at h
        subst h
        rw [hdesc] at hd
        simpa [jsTruthy] using hd
    · rw [if_neg hd] at h
      by_cases ht : jsTruthy e.title = true
      · rw [if_pos ht] at h
        cases httl : e.title with
        | none => rw [httl] at h; cases h
        | some d =>
          rw [httl] at h
          simp only [Option.some.injEq] at h
          subst h
          rw [httl] at ht
          simpa [jsTruthy] using ht
      · rw [if_neg ht] at h; cases h

/-- A truthy result of attachmentText is a non-empty string. -/
theorem attachmentText_nonempty (l : List Attachment) (s : String)
    (h : attachmentText l = some s) : s.isEmpty = false := by
  cases l with
  | nil => simp [attachmentText] at h
  | cons a rest =>
    simp only [attachmentText] at h
    by_cases hu : (!a.url.isEmpty) = true
    · rw [if_pos hu] at h
      simp only [Option.some.injEq] at h
      subst h
      simpa using hu
    · rw [if_neg hu] at h; cases h

/-- C6: pickDisplayText follows the claimed precedence — non-empty trimmed
text, else the first embed's description, else the first embed's title,
else the first attachment's url, else the sentinel — its result is always
non-empty, and the displayText of every forwarded message payload is
exactly pickDisplayText applied to that message's trimmed content,
normalized embeds and normalized attachments. -/
theorem displayText_precedence :
    (∀ (t : String) (es : List Embed) (at1 : List Attachment),
       t.isEmpty = false → pickDisplayText t es at1 = t)
    ∧
    (∀ (t : String) (e : Embed) (es : List Embed) (at1 : List Attachment) (d : String),
       t.isEmpty = true → e.description = some d → d.isEmpty = false →
       pickDisplayText t (e :: es) at1 = d)
    ∧
    (∀ (t : String) (e : Embed) (es : List Embed) (at1 : List Attachment) (ttl : String),
       t.isEmpty = true → jsTruthy e.description = false →
       e.title = some ttl → ttl.isEmpty = false →
       pickDisplayText t (e :: es) at1 = ttl)
    ∧
    (∀ (t : String) (es : List Embed) (a : Attachment) (at1 : List Attachment),
       t.isEmpty = true → embedText es = none → a.url.isEmpty = false →
       pickDisplayText t es (a :: at1) = a.url)
    ∧
    (∀ (t : String) (es : List Embed) (at1 : List Attachment),
       t.isEmpty = true → embedText es = none → attachmentText at1 = none →
       pickDisplayText t es at1 = "[no content]")
    ∧
    (∀ (t : String) (es : List Embed) (at1 : List Attachment),
       (pickDisplayText t es at1).isEmpty = false)
    ∧
    (∀ (selfId : Option String) (dmap : DedupeMap) (m : RawMsg) (now : Nat)
       (p : MsgPayload),
       Emit.toAll (.message p) ∈ (messageCreate selfId dmap m now).2 →
       p.displayText = pickDisplayText (trimContent m.content)
         (normEmbeds m.embeds) (normAttachments m.attachments)) := by
  refine ⟨?_, ?_, ?_, ?_, ?_, ?_, ?_⟩
  · intro t es at1 ht
    simp [pickDisplayText, ht]
  · intro t e es at1 d ht hdesc hd
    simp [pickDisplayText, ht, embedText, hdesc, jsTruthy, hd]
  · intro t e es at1 ttl ht hdesc httl hts
    cases hdo : e.description with
    | none => simp [pickDisplayText, ht, embedText, hdo, httl, jsTruthy, hts]
    | some d =>
      have hd : d.isEmpty = true := by
        rw [hdo] at hdesc; simpa [jsTruthy] using hdesc
      simp [pickDisplayText, ht, embedText, hdo, httl, jsTruthy, hts, hd]
  · intro t es a at1 ht hemb hurl
    simp [pickDisplayText, ht, hemb, attachmentText, hurl]
  · intro t es at1 ht hemb hatt
    simp [pickDisplayText, ht, hemb, hatt]
  · intro t es at1
    unfold pickDisplayText
    by_cases ht : t.isEmpty = false
    · simp [ht]
    · have ht' : t.isEmpty = true := by simpa using ht
      rw [if_neg (by simp [ht'])]
      cases hemb : embedText es with
      | some s => exact embedText_nonempty es s hemb
      | none =>
        cases hatt : attachmentText at1 with
        | some s => exact attachmentText_nonempty at1 s hatt
        | none => rfl
  · intro selfId dmap m now p h
    by_cases hg : (!m.hasGuild) = true
    · simp [messageCreate, hg] at h
    · by_cases hw : m.webhookId.isSome = true
      · simp [messageCreate, hg, hw] at h
      · by_cases hb : (m.authorBot && selfId.isSome && !(selfId == some m.authorId)) = true
        · simp only [messageCreate, hg, hw, hb, Bool.false_eq_true, if_false,
            if_true, ite_true, ite_false] at h
          simp at h
        · by_cases hs : dedupeSuppressed dmap m.channelId m.id now = true
          · simp [messageCreate, hg, hw, hb, hs] at h
          · simp only [messageCreate, hg, hw, hb, hs, Bool.false_eq_true,
              if_false, ite_false] at h
            split at h <;> simp only [List.mem_cons, List.not_mem_nil,
              or_false, Emit.toAll.injEq, SMsg.message.injEq] at h
            · rcases h with h | h
              · subst h; rfl
              · cases h
            · subst h; rfl

/-- Witness for C6 at the two scenarios from the specification: empty text
with a single title-only embed resolves to the title, and empty text with
a single attachment resolves to its url. -/
theorem displayText_precedence_witness :
    pickDisplayText "" [⟨some "T", none, none⟩] [] = "T" ∧
    pickDisplayText "" [] [⟨"http://x/img.png", none, none⟩] = "http://x/img.png" :=
  ⟨displayText_precedence.2.2.1 "" ⟨some "T", none, none⟩ [] [] "T" rfl rfl rfl rfl,
   displayText_precedence.2.2.2.1 "" [] ⟨"http://x/img.png", none, none⟩ [] rfl rfl rfl⟩

/-- C7 counterexample: the upstream cache holds a guild literally named
Test with a sendable channel named general, yet resolving guildName test
(differing only in letter case) fails with Guild not found, and resolving
channelName GENERAL inside the correctly-cased guild fails as well — the
name matching in the send path is exact, not case-insensitive. -/
theorem name_match_case_sensitive_cex :
    resolveTarget upTest { msgHi with guildName := some "test" } =
      .error "Guild not found" ∧
    resolveTarget upTest { msgHi with channelName := some "GENERAL" } =
      .error "Channel not found or not sendable" ∧
    resolveTarget upTest msgHi = .ok chGeneral := by
  refine ⟨rfl, rfl, rfl⟩

/-- C7 amended: guildRef and channelRef may each be an id or a name and an
id match takes precedence over a name match — a successful global
channelId fetch decides the target regardless of any names, and a guildId
cache hit makes the guildName field irrelevant — but a name match must be
exact (case-sensitive): the name fallbacks succeed precisely when some
entry has literally that name or id (for channels, additionally
text-like); resolution reports not-found when the guild is unknown or no
sendable channel matches. -/
theorem resolve_precedence_exact_name :
    (∀ (up : Upstream) (msg : SendMsg) (ch : UChannel),
       globalChannelLookup up msg = some ch →
       resolveTarget up msg =
         (if ch.hasSend then .ok ch else .error "Channel not found or not sendable"))
    ∧
    (∀ (up : Upstream) (msg : SendMsg) (gid : String) (g : UGuild) (gn2 : Option String),
       msg.guildId = some gid → guildById up gid = some g →
       guildLookup up msg = some g ∧
       resolveTarget up { msg with guildName := gn2 } = resolveTarget up msg)
    ∧
    (∀ (gs : List UGuild) (r : String),
       (guildByNameOrId ⟨gs⟩ r).isSome = true ↔ ∃ g ∈ gs, g.name = r ∨ g.id = r)
    ∧
    (∀ (g : UGuild) (r : String),
       (channelByNameOrId g r).isSome = true ↔
         ∃ c ∈ g.channels, (c.name = r ∨ c.id = r) ∧ isTextLikeChannel c = true)
    ∧
    (∀ (up : Upstream) (msg : SendMsg),
       globalChannelLookup up msg = none → guildLookup up msg = none →
       resolveTarget up msg = .error "Guild not found")
    ∧
    (∀ (up : Upstream) (msg : SendMsg) (g : UGuild),
       globalChannelLookup up msg = none → guildLookup up msg = some g →
       channelInGuild g msg = none →
       resolveTarget up msg = .error "Channel not found or not sendable") := by
  refine ⟨?_, ?_, ?_, ?_, ?_, ?_⟩
  · intro up msg ch h
    simp [resolveTarget, h]
  · intro up msg gid g gn2 hgid hgb
    have hl : guildLookup up msg = some g := by
      simp [guildLookup, hgid, hgb]
    refine ⟨hl, ?_⟩
    have hl2 : guildLookup up { msg with guildName := gn2 } = some g := by
      simp [guildLookup, hgid, hgb]
    have hglob : globalChannelLookup up { msg with guildName := gn2 } =
        globalChannelLookup up msg := rfl
    have hcg : channelInGuild g { msg with guildName := gn2 } =
        channelInGuild g msg := rfl
    cases h0 : globalChannelLookup up msg with
    | some ch => simp [resolveTarget, hglob, h0]
    | none => simp [resolveTarget, hglob, h0, hl, hl2, hcg]
  · intro gs r
    simp [guildByNameOrId]
  · intro g r
    simp [channelByNameOrId]
  · intro up msg h0 h1
    simp [resolveTarget, h0, h1]
  · intro up msg g h0 h1 h2
    simp [resolveTarget, h0, h1, h2]

/-- Witness for C7 amended: resolving by exact guild and channel names
succeeds on the fixture, and the characterizations hold on it. -/
theorem resolve_precedence_exact_name_witness :
    ((guildByNameOrId ⟨[guildTest]⟩ "Test").isSome = true ↔
       ∃ g ∈ [guildTest], g.name = "Test" ∨ g.id = "Test") ∧
    resolveTarget upTest
        { msgHi with channelId := some "c1", guildName := some "ignored" } =
      (if chGeneral.hasSend then .ok chGeneral
       else .error "Channel not found or not sendable") := by
  constructor
  · exact resolve_precedence_exact_name.2.2.1 [guildTest] "Test"
  · exact resolve_precedence_exact_name.1 upTest
      { msgHi with channelId := some "c1", guildName := some "ignored" } chGeneral rfl

/-- C8 counterexample: with three open sockets of which the middle one's
send throws, broadcast delivers only to s1 — the failure on s2 is not
caught inside the loop and prevents delivery to the still-open s3. -/
theorem broadcast_failure_not_isolated_cex :
    broadcastRun [sOk1, sBad, sOk3] = (1, ["s1"], false) ∧
    sOk3.readyStateOpen = true := by
  exact ⟨rfl, rfl⟩

/-- C8 amended: broadcast serializes the event exactly once and attempts
delivery to every open connection in list order, skipping non-open ones;
but a per-connection send failure is not caught inside broadcast — when no
open socket throws every open socket is delivered to, while a throwing
open socket aborts the loop, so exactly the open sockets before it are
delivered to (failures are only caught by the single-socket safeSend
helper). -/
theorem broadcast_serialize_once_and_order :
    (∀ sockets : List WSocket, (broadcastRun sockets).1 = 1)
    ∧
    (∀ sockets : List WSocket,
       (∀ ws ∈ sockets, ws.readyStateOpen = true → ws.sendThrows = false) →
       broadcastDeliver sockets =
         ((sockets.filter (fun ws => ws.readyStateOpen)).map (fun ws => ws.sid), true))
    ∧
    (∀ (pre : List WSocket) (w : WSocket) (post : List WSocket),
       w.readyStateOpen = true → w.sendThrows = true →
       (∀ ws ∈ pre, ws.readyStateOpen = true → ws.sendThrows = false) →
       broadcastDeliver (pre ++ w :: post) =
         ((pre.filter (fun ws => ws.readyStateOpen)).map (fun ws => ws.sid), false)) := by
  refine ⟨fun _ => rfl, ?_, ?_⟩
  · intro sockets
    induction sockets with
    | nil => intro _; rfl
    | cons ws rest ih =>
      intro h
      have hrest : ∀ x ∈ rest, x.readyStateOpen = true → x.sendThrows = false :=
        fun x hx => h x (List.mem_cons_of_mem _ hx)
      by_cases ho : ws.readyStateOpen = true
      · have ht : ws.sendThrows = false := h ws (List.mem_cons_self _ _) ho
        simp [broadcastDeliver, ho, ht, List.filter_cons, ih hrest]
      · have ho' : ws.readyStateOpen = false := by simpa using ho
        simp [broadcastDeliver, ho', List.filter_cons, ih hrest]
  · intro pre w post hw ht
    induction pre with
    | nil =>
      intro _
      simp [broadcastDeliver, hw, ht]
    | cons ws rest ih =>
      intro h
      have hrest : ∀ x ∈ rest, x.readyStateOpen = true → x.sendThrows = false :=
        fun x hx => h x (List.mem_cons_of_mem _ hx)
      by_cases ho : ws.readyStateOpen = true
      · have hts : ws.sendThrows = false := h ws (List.mem_cons_self _ _) ho
        simp [broadcastDeliver, ho, hts, List.filter_cons, ih hrest]
      · have ho' : ws.readyStateOpen = false := by simpa using ho
        simp [broadcastDeliver, ho', List.filter_cons, ih hrest]

/-- Witness for C8 amended: with two healthy open sockets broadcast
delivers to both in order and completes. -/
theorem broadcast_serialize_once_and_order_witness :
    broadcastDeliver [sOk1, sOk3] =
      (([sOk1, sOk3].filter (fun ws => ws.readyStateOpen)).map (fun ws => ws.sid),
       true) :=
  broadcast_serialize_once_and_order.2.1 [sOk1, sOk3]
    (by decide)

/-- handleSendRequest never touches the directory cache fields. -/
theorem handleSendRequest_cache (st : BridgeState) (up : Upstream)
    (se : String → Option String) (msg : SendMsg) :
    (handleSendRequest st up se msg).1.servers = st.servers ∧
    (handleSendRequest st up se msg).1.cacheReady = st.cacheReady ∧
    (handleSendRequest st up se msg).1.cacheBuilding = st.cacheBuilding := by
  unfold handleSendRequest
  split
  · exact ⟨rfl, rfl, rfl⟩
  · split
    · exact ⟨rfl, rfl, rfl⟩
    · split
      · split <;> exact ⟨rfl, rfl, rfl⟩
      · exact ⟨rfl, rfl, rfl⟩

/-- The sendMessage branch never touches the directory cache fields. -/
theorem sendMessageBranch_cache (st : BridgeState) (up : Upstream)
    (se : String → Option String) (now : Nat) (msg0 : SendMsg) :
    (sendMessageBranch st up se now msg0).1.servers = st.servers ∧
    (sendMessageBranch st up se now msg0).1.cacheReady = st.cacheReady ∧
    (sendMessageBranch st up se now msg0).1.cacheBuilding = st.cacheBuilding := by
  by_cases hc : st.discordConnected = true
  · have he : sendMessageBranch st up se now msg0 =
        ((handleSendRequest st up se (withDefaultRef now msg0)).1,
         (handleSendRequest st up se (withDefaultRef now msg0)).2.1,
         (handleSendRequest st up se (withDefaultRef now msg0)).2.2.1) := by
      simp [sendMessageBranch, hc]
    rw [he]
    exact handleSendRequest_cache st up se (withDefaultRef now msg0)
  · have hc' : st.discordConnected = false := by simpa using hc
    by_cases hf :
        (List.find? (fun q => q.req.ref == (withDefaultRef now msg0).ref) st.queue).isNone = true
    · have he : sendMessageBranch st up se now msg0 =
          ({ st with queue := st.queue ++ [⟨withDefaultRef now msg0, 0, now⟩] },
           [.toClient (.ack { ok := false, ref := (withDefaultRef now msg0).ref,
                              queued := true, error := some "queued-not-connected" })],
           []) := by
        simp [sendMessageBranch, hc', hf]
      rw [he]
      exact ⟨rfl, rfl, rfl⟩
    · have hf' :
          (List.find? (fun q => q.req.ref == (withDefaultRef now msg0).ref) st.queue).isNone = false := by
        simpa using hf
      have he : sendMessageBranch st up se now msg0 = (st, [], []) := by
        simp [sendMessageBranch, hc', hf']
      rw [he]
      exact ⟨rfl, rfl, rfl⟩

/-- C9 counterexample: right after a restart with a persisted snapshot the
directory readiness flag is true while Discord is still disconnected, yet
the connection replay emits ready{value:false} — the handler's second
message carries the upstream-connected flag, not the directory readiness
flag, and the message carrying the actual directory readiness value never
appears. -/
theorem connect_ready_flag_cex :
    (onConnection stReadyCache).2.1 =
      [.toClient (.bridgeStatus true false), .toClient (.ready false),
       .toClient (.serverList [gCached])] ∧
    stReadyCache.cacheReady = true ∧
    Emit.toClient (.ready stReadyCache.cacheReady) ∉ (onConnection stReadyCache).2.1 := by
  refine ⟨rfl, rfl, by decide⟩

/-- C9 amended: on a new client connection the server sends, in order,
bridgeStatus, a ready message carrying the upstream-connected flag, and
the full server list exactly when the cached list is nonempty, with no
state change and zero upstream calls; no client message other than
refreshServers ever changes the directory cache (getServerList, with or
without force, answers from the cache); and a build requested while one is
already in flight is a no-op. -/
theorem connect_replay_no_rebuild :
    (∀ st : BridgeState,
       (onConnection st).1 = st ∧ (onConnection st).2.2 = [] ∧
       (st.servers ≠ [] →
         (onConnection st).2.1 =
           [.toClient (.bridgeStatus true st.discordConnected),
            .toClient (.ready st.discordConnected),
            .toClient (.serverList st.servers)]) ∧
       (st.servers = [] →
         (onConnection st).2.1 =
           [.toClient (.bridgeStatus true st.discordConnected),
            .toClient (.ready st.discordConnected)]))
    ∧
    (∀ (st : BridgeState) (up : Upstream) (se : String → Option String)
       (now : Nat) (m : ClientMsg),
       m ≠ .refreshServers →
       (handleClientMsg st up se now m).1.servers = st.servers ∧
       (handleClientMsg st up se now m).1.cacheReady = st.cacheReady ∧
       (handleClientMsg st up se now m).1.cacheBuilding = st.cacheBuilding)
    ∧
    (∀ (st : BridgeState) (up : Upstream) (p : Bool),
       st.cacheBuilding = true → buildCacheOnce st up p = (st, [], [])) := by
  refine ⟨?_, ?_, ?_⟩
  · intro st
    refine ⟨rfl, rfl, ?_, ?_⟩
    · intro h
      have hlen : st.servers.length > 0 := List.length_pos.mpr h
      simp [onConnection, hlen]
    · intro h
      simp [onConnection, h]
  · intro st up se now m hm
    cases m with
    | hbAck => exact ⟨rfl, rfl, rfl⟩
    | pingMsg => exact ⟨rfl, rfl, rfl⟩
    | getServerList f => exact ⟨rfl, rfl, rfl⟩
    | refreshServers => exact absurd rfl hm
    | sendMessage m0 => exact sendMessageBranch_cache st up se now m0
    | other => exact ⟨rfl, rfl, rfl⟩
  · intro st up p h
    simp [buildCacheOnce, h]

/-- Witness for C9 amended: the replay on the restart state emits exactly
bridgeStatus, ready and the cached server list, and a build request while
one is in flight leaves everything untouched. -/
theorem connect_replay_no_rebuild_witness :
    (onConnection stReadyCache).2.1 =
      [.toClient (.bridgeStatus true stReadyCache.discordConnected),
       .toClient (.ready stReadyCache.discordConnected),
       .toClient (.serverList stReadyCache.servers)] ∧
    buildCacheOnce { initState with cacheBuilding := true } upTest true =
      ({ initState with cacheBuilding := true }, [], []) := by
  constructor
  · exact (connect_replay_no_rebuild.1 stReadyCache).2.2.1 (by decide)
  · exact connect_replay_no_rebuild.2.2 { initState with cacheBuilding := true }
      upTest true rfl

/-- C10: every ack emitted by handleSendRequest (success, skip, or
failure) and every ack emitted by a replay-loop step is a broadcast to all
open connections; while the upstream is not connected, the sendMessage
branch emits only the queued ack, delivered solely to the submitting
socket; and while connected every emission of the branch is a broadcast
ack. -/
theorem ack_broadcast_vs_queued_direct :
    (∀ (st : BridgeState) (up : Upstream) (se : String → Option String)
       (msg : SendMsg) (e : Emit),
       e ∈ (handleSendRequest st up se msg).2.1 → ∃ a : Ack, e = .toAll (.ack a))
    ∧
    (∀ (st : BridgeState) (up : Upstream) (se : String → Option String)
       (now : Nat) (e : Emit),
       e ∈ (processQueueStep st up se now).2.1 → ∃ a : Ack, e = .toAll (.ack a))
    ∧
    (∀ (st : BridgeState) (up : Upstream) (se : String → Option String)
       (now : Nat) (msg0 : SendMsg) (e : Emit),
       st.discordConnected = false →
       e ∈ (sendMessageBranch st up se now msg0).2.1 →
       e = .toClient (.ack { ok := false, ref := (withDefaultRef now msg0).ref,
                             queued := true, error := some "queued-not-connected" }))
    ∧
    (∀ (st : BridgeState) (up : Upstream) (se : String → Option String)
       (now : Nat) (msg0 : SendMsg) (e : Emit),
       st.discordConnected = true →
       e ∈ (sendMessageBranch st up se now msg0).2.1 → ∃ a : Ack, e = .toAll (.ack a)) := by
  have hmain : ∀ (st : BridgeState) (up : Upstream) (se : String → Option String)
      (msg : SendMsg) (e : Emit),
      e ∈ (handleSendRequest st up se msg).2.1 → ∃ a : Ack, e = .toAll (.ack a) := by
    intro st up se msg e he
    obtain ⟨a, ha⟩ := handleSendRequest_emits st up se msg
    rw [ha] at he
    simp only [List.mem_singleton] at he
    exact ⟨a, he⟩
  refine ⟨hmain, ?_, ?_, ?_⟩
  · intro st up se now e he
    cases hq : st.queue with
    | nil => simp [processQueueStep, hq] at he
    | cons item rest =>
      by_cases hp : refProcessed st item.req.ref = true
      · simp only [processQueueStep, hq, hp, if_true, ite_true] at he
        simp only [List.mem_singleton] at he
        exact ⟨_, he⟩
      · have hp' : refProcessed st item.req.ref = false := by simpa using hp
        simp only [processQueueStep, hq, hp', Bool.false_eq_true, if_false, ite_false] at he
        split at he
        · exact hmain _ up se item.req e he
        · split at he
          · exact hmain _ up se item.req e he
          · rcases List.mem_append.mp he with h | h
            · exact hmain _ up se item.req e h
            · simp only [List.mem_singleton] at h
              exact ⟨_, h⟩
  · intro st up se now msg0 e hconn he
    have hc' : st.discordConnected = false := hconn
    by_cases hf :
        (List.find? (fun q => q.req.ref == (withDefaultRef now msg0).ref) st.queue).isNone = true
    · simp only [sendMessageBranch, hc', Bool.false_eq_true, if_false, ite_false, hf,
        if_true, ite_true] at he
      simpa using he
    · have hf' :
          (List.find? (fun q => q.req.ref == (withDefaultRef now msg0).ref) st.queue).isNone = false := by
        simpa using hf
      simp [sendMessageBranch, hc', hf'] at he
  · intro st up se now msg0 e hconn he
    simp only [sendMessageBranch, hconn, if_true, ite_true] at he
    exact hmain st up se (withDefaultRef now msg0) e he

/-- Witness for C10: the queued ack for a first-time disconnected
submission of msgHi is delivered directly to the submitter with ref abc. -/
theorem ack_broadcast_vs_queued_direct_witness :
    Emit.toClient (.ack { ok := false, ref := some "abc", queued := true,
                          error := some "queued-not-connected" }) =
      .toClient (.ack { ok := false, ref := (withDefaultRef 3 msgHi).ref,
                        queued := true, error := some "queued-not-connected" }) :=
  ack_broadcast_vs_queued_direct.2.2.1 initState upTest (fun _ => none) 3 msgHi
    (Emit.toClient (.ack { ok := false, ref := some "abc", queued := true,
                           error := some "queued-not-connected" }))
    rfl (by decide)

end Disclink
